import Mathlib

/-!
# Verification of the OMEGA task-dispatch and planning engine

Shallow embedding of the dispatch/planning core of the `o.m.e.g.a.` repository:
the task envelope model (`omega/core/models/task_models.py`), the capability
matcher dispatch loop (`omega/agents/capability_matcher.py`), the agent runtime
consume loop (`omega/core/dual_mode_agent.py`), the capability registry and its
scoring algorithm (`omega/core/agent_discovery.py`), the workflow planner's
graph utilities (`omega/core/utils/task_utils.py`), the registry service listing
(`omega/services/agent_registry/service.py`) and the reasoning-effort classifier
(`omega/core/factories/task_factory.py`).

Python numbers are modelled as `ℚ` where the source manipulates floats and as
`Int`/`Nat` where the inputs under scrutiny are integral; strings are Lean
`String`s manipulated through explicit character lists so that every definition
evaluates by kernel reduction.
-/

namespace Omega

/-! ## Python-style string primitives -/

/-- Python `str.lower`, character by character (ASCII case mapping). -/
def lowerStr (s : String) : String := ⟨s.data.map Char.toLower⟩

/-- Substring test on character lists: Python `needle in haystack`. -/
def infixChars (n : List Char) : List Char → Bool
  | [] => n.isPrefixOf []
  | c :: t => n.isPrefixOf (c :: t) || infixChars n t

/-- Python `needle in haystack` on strings. -/
def strIn (needle haystack : String) : Bool := infixChars needle.data haystack.data

/-- Python `str.strip()`: remove leading and trailing whitespace. -/
def pyStrip (s : String) : String :=
  ⟨((s.data.dropWhile Char.isWhitespace).reverse.dropWhile Char.isWhitespace).reverse⟩

/-- Helper for `countWords`: the Boolean records whether we are inside a word. -/
def countWordsAux : Bool → List Char → Nat
  | _, [] => 0
  | inWord, c :: t =>
    if c.isWhitespace then countWordsAux false t
    else (if inWord then 0 else 1) + countWordsAux true t

/-- Python `len(s.split())`: number of maximal whitespace-separated runs. -/
def countWords (s : String) : Nat := countWordsAux false s.data

/-- Python regex word character (ASCII `\w`: alphanumeric or underscore). -/
def isWordChar (c : Char) : Bool := c.isAlphanum || c == '_'

/-- Python `str.count`: non-overlapping occurrences of `n`, scanning left to
right.  Fuel-based recursion; `countOcc` supplies enough fuel to scan the whole
haystack. -/
def countOccAux (n : List Char) : Nat → List Char → Nat
  | 0, _ => 0
  | _ + 1, [] => 0
  | fuel + 1, c :: t =>
    if n.isPrefixOf (c :: t) then 1 + countOccAux n fuel ((c :: t).drop n.length)
    else countOccAux n fuel t

/-- Python `haystack.count(needle)`; an empty needle counts `len + 1` as in Python. -/
def countOcc (n h : List Char) : Nat :=
  if n.isEmpty then h.length + 1 else countOccAux n (h.length + 1) h

/-- A regex `\b` word boundary between two optional adjacent characters
(string edges count as non-word positions). -/
def wordBoundary (prev next : Option Char) : Bool :=
  (match prev with | none => false | some p => isWordChar p)
    != (match next with | none => false | some c => isWordChar c)

/-- Helper for `countWholeWord`: scan with the previous character tracked,
counting non-overlapping matches of `w` flanked by `\b` boundaries, as
`re.findall(r'\b' + kw + r'\b', s)` does. -/
def countWholeWordAux (w : List Char) : Nat → Option Char → List Char → Nat
  | 0, _, _ => 0
  | _ + 1, _, [] => 0
  | fuel + 1, prev, c :: t =>
    if !w.isEmpty && w.isPrefixOf (c :: t) && wordBoundary prev (some c)
        && wordBoundary (some (w.getLastD c)) ((c :: t).drop w.length).head? then
      1 + countWholeWordAux w fuel (some (w.getLastD c)) ((c :: t).drop w.length)
    else countWholeWordAux w fuel (some c) t

/-- Occurrences of `w` in `h` as a whole word (regex `\b...\b`). -/
def countWholeWord (w h : List Char) : Nat := countWholeWordAux w (h.length + 1) none h

/-! ## Enumerations of the task model (`task_models.py`, `reasoning.py`) -/

/-- `ReasoningEffort` from `omega/core/models/reasoning.py`. -/
inductive ReasoningEffort
  | low
  | medium
  | high
deriving DecidableEq, Repr

/-- Numeric rank realising the order LOW < MEDIUM < HIGH. -/
def effortRank : ReasoningEffort → Nat
  | .low => 0
  | .medium => 1
  | .high => 2

/-- The order LOW ≤ MEDIUM ≤ HIGH on effort levels. -/
abbrev effortLe (a b : ReasoningEffort) : Prop := effortRank a ≤ effortRank b

/-- `ReasoningStrategy` from `omega/core/models/reasoning.py`
(`direct_answer`, `chain-of-thought`, `chain-of-draft`). -/
inductive ReasoningStrategy
  | direct
  | cot
  | cod
deriving DecidableEq, Repr

/-- `TaskStatus` from `omega/core/models/task_models.py`. -/
inductive TaskStatus
  | new
  | inProgress
  | completed
  | failed
  | escalated
  | cancelled
deriving DecidableEq, Repr

/-- `TaskEvent` from `omega/core/models/task_models.py`. -/
inductive TaskEvent
  | plan
  | execute
  | critique
  | refine
  | conclude
  | complete
  | fail
  | escalate
  | reject
  | cancel
  | heartbeat
  | info
  | awaitingTool
  | toolComplete
deriving DecidableEq, Repr

/-! ## Task model structures (`task_models.py`) -/

/-- `TaskCore`: immutable business definition of a unit of work.  The opaque
`payload` map is modelled as an association list; `Capability` enum values are
their string values. -/
structure TaskCore where
  id : String
  name : String
  description : String
  category : String
  requiredCapabilities : List String
  dependencies : List String := []
  parallelizable : Bool := false
  payload : List (String × String) := []
deriving DecidableEq, Repr

/-- `TaskHeader`: mutable orchestration metadata.  History entries are opaque
strings, timestamps are rationals. -/
structure TaskHeader where
  conversationId : String
  sender : String
  candidateAgents : List String := []
  assignedAgent : Option String := none
  status : TaskStatus := .new
  confidence : ℚ := 9 / 10
  effort : Option ReasoningEffort := none
  strategy : Option ReasoningStrategy := none
  lastEvent : TaskEvent := .plan
  history : List String := []
  timestamp : ℚ := 0
deriving DecidableEq, Repr

/-- `TaskEnvelope`: the unit shipped on the wire. -/
structure TaskEnvelope where
  header : TaskHeader
  task : TaskCore
deriving DecidableEq, Repr

/-- Embeds `TaskHeader._auto_effort` (task_models.py lines 76-88), a pydantic
before-validator over the raw input dict.  `effort = none` models the key being
absent or explicitly null (Python `values.get("effort") is None` treats both
alike); `strategy = none` models the key being absent, `some none` present with
a null value, `some (some s)` present with a strategy.  When effort is missing
and a strategy key is present, effort is derived from the strategy value. -/
def autoEffort (effort : Option ReasoningEffort)
    (strategy : Option (Option ReasoningStrategy)) : Option ReasoningEffort :=
  match effort, strategy with
  | none, some strat =>
    some (if strat = some .direct then .low
          else if strat = some .cot then .medium
          else .high)
  | e, _ => e

/-! ## Capability matcher dispatch loop (`capability_matcher.py`) -/

/-- Python truthiness of an `Optional[str]`: `None` and the empty string are
falsy, any other string truthy. -/
def optStrTruthy : Option String → Bool
  | none => false
  | some s => s != ""

/-- Python `list.sort(key=..., reverse=True)`: the unique stable descending
sort by key, realised as insertion sort placing an element before every
element of smaller-or-equal key. -/
def sortDescBy {α β : Type} [LinearOrder β] (key : α → β) (l : List α) : List α :=
  l.insertionSort (fun a b => key b ≤ key a)

/-- Result of `CapabilityMatcherAgent._select_agent`. -/
structure SelectResult where
  winner : String
  candidates : List String
deriving DecidableEq, Repr

/-- Embeds `CapabilityMatcherAgent._select_agent` (capability_matcher.py lines
71-79).  The in-memory registry maps agent ids to their `tool_proficiencies`
lists (`AgentCapability` of `omega/core/models/capabilities.py`); `overlap` is
the cardinality of `set(required) & set(proficiencies)`. -/
def selectAgent (registry : List (String × List String)) (required : List String) :
    SelectResult :=
  let scored := registry.filterMap (fun entry =>
    let overlap := (required.eraseDups.filter (fun c => entry.2.contains c)).length
    if overlap > 0 then some (entry.1, overlap) else none)
  let sorted := sortDescBy (fun p => p.2) scored
  { winner := match sorted with | [] => "fallback_agent" | p :: _ => p.1
    candidates := sorted.map (fun p => p.1) }

/-- Observable outcome of one iteration of the matcher's message loop:
how many times `xack` ran, what was `xadd`-ed to the winner inbox and to the
audit stream, whether an exception escaped the loop body, and the final value
of the envelope variable (`none` when deserialization failed). -/
structure MatcherStepResult where
  ackCount : Nat
  inboxPublishes : List (String × TaskEnvelope)
  auditPublishes : List TaskEnvelope
  raised : Bool
  finalEnv : Option TaskEnvelope
deriving DecidableEq, Repr

/-- Embeds one iteration of the message loop in `CapabilityMatcherAgent.run`
(capability_matcher.py lines 47-68).  `parsed` is the outcome of
`TaskEnvelope.model_validate_json` (`none` = it raised); `inboxOk` / `auditOk`
say whether the corresponding `xadd` call succeeds.  The body is a
`try/finally` with no `except`: the `finally` always runs `xack`, and an
exception then propagates out (`raised`).  In the already-routed branch the
body also runs an explicit `xack` before `continue`, so that branch
acknowledges twice. -/
def matcherProcessMessage (registry : List (String × List String))
    (parsed : Option TaskEnvelope) (inboxOk auditOk : Bool) : MatcherStepResult :=
  match parsed with
  | none => ⟨1, [], [], true, none⟩
  | some env =>
    if optStrTruthy env.header.assignedAgent then
      ⟨2, [], [], false, some env⟩
    else
      let sel := selectAgent registry env.task.requiredCapabilities
      let env' : TaskEnvelope :=
        { env with header :=
          { env.header with candidateAgents := sel.candidates
                            assignedAgent := some sel.winner } }
      if !inboxOk then ⟨1, [], [], true, some env'⟩
      else if !auditOk then ⟨1, [(sel.winner, env')], [], true, some env'⟩
      else ⟨1, [(sel.winner, env')], [env'], false, some env'⟩

/-! ## Agent runtime consume loop (`dual_mode_agent.py`) -/

/-- Observable outcome of one iteration of `DualModeAgent._consume_stream`. -/
structure ConsumeStepResult where
  ackCount : Nat
  published : List TaskEnvelope
  errorLogged : Bool
deriving DecidableEq, Repr

/-- Embeds one iteration of the message loop in `DualModeAgent._consume_stream`
(dual_mode_agent.py lines 189-197).  The opaque handler is a parameter
(`handle_task`), returning `.error` when it raises.  The body is
`try/except/finally`: any exception (parse, handler, or publish) is caught and
logged, and the `finally` acknowledges exactly once on every path.  Nothing is
published when the handler raises. -/
def consumeProcessMessage (handler : TaskEnvelope → Except String TaskEnvelope)
    (parsed : Option TaskEnvelope) (publishOk : Bool) : ConsumeStepResult :=
  match parsed with
  | none => ⟨1, [], true⟩
  | some env =>
    match handler env with
    | .error _ => ⟨1, [], true⟩
    | .ok resultEnv => if publishOk then ⟨1, [resultEnv], false⟩ else ⟨1, [], true⟩

/-! ## Capability registry and scoring (`agent_discovery.py`) -/

/-- `AgentCapability` of `omega/core/agent_discovery.py` (the pydantic model
with examples and tags; `parameters` is an opaque optional map unused by the
scoring code). -/
structure AgentCapability where
  name : String
  description : String
  examples : List String := []
  parameters : Option (List (String × String)) := none
  tags : List String := []
deriving DecidableEq, Repr

/-- One stored registry entry of `CapabilityRegistry` (in-memory path): agent
id, capability list and the `last_updated` timestamp written by
`register_agent_capabilities`.  Entries are kept in storage iteration order. -/
structure RegistryEntry where
  agentId : String
  capabilities : List AgentCapability
  lastUpdated : ℚ
deriving DecidableEq, Repr

/-- One element of the list returned by `match_capability`. -/
structure MatchResult where
  agentId : String
  score : ℚ
  matchedCapability : Option AgentCapability
deriving DecidableEq, Repr

/-- The normalized query: `query_text.lower().strip()`. -/
def normQuery (queryText : String) : String := pyStrip (lowerStr queryText)

/-- The distinct lowered query tags that also occur among the capability's
lowered tags: `set(query_tags) & set(tag.lower() for tag in capability.tags)`. -/
def matchedTags (cap : AgentCapability) (qtags : List String) : List String :=
  qtags.eraseDups.filter (fun t => (cap.tags.map lowerStr).contains t)

/-- The tag-overlap rule value:
`0.5 + (len(matching_tags) / len(query_tags)) * 0.4`. -/
def tagScore (cap : AgentCapability) (qtags : List String) : ℚ :=
  1 / 2 + ((matchedTags cap qtags).length : ℚ) / (qtags.length : ℚ) * (2 / 5)

/-- Embeds `CapabilityRegistry._score_capability_match` (agent_discovery.py
lines 118-157): exact lowered-name match short-circuits to 1; otherwise the
running score is raised by each applicable rule in source order (name substring
4/5, description substring 3/5, every matching example 7/10, tag overlap). -/
def scoreCapabilityMatch (cap : AgentCapability) (queryText : String)
    (queryTags : List String) : ℚ :=
  let q := normQuery queryText
  let qtags := queryTags.map lowerStr
  if lowerStr cap.name == q then 1
  else
    let s1 : ℚ := if strIn q (lowerStr cap.name) then max 0 (4 / 5) else 0
    let s2 : ℚ := if strIn q (lowerStr cap.description) then max s1 (3 / 5) else s1
    let s3 : ℚ :=
      cap.examples.foldl (fun acc ex => if strIn q (lowerStr ex) then max acc (7 / 10) else acc) s2
    if !qtags.isEmpty && !cap.tags.isEmpty then
      if !(matchedTags cap qtags).isEmpty then max s3 (tagScore cap qtags) else s3
    else s3

/-- The best-capability fold of `match_capability` (lines 97-104): running
maximum with a strictly-greater update, so the first capability attaining the
maximal score is kept as `matched_capability`; the initial state is score 0,
no capability. -/
def bestCapFold (caps : List AgentCapability) (queryText : String)
    (queryTags : List String) : ℚ × Option AgentCapability :=
  caps.foldl (fun acc cap =>
    if scoreCapabilityMatch cap queryText queryTags > acc.1 then
      (scoreCapabilityMatch cap queryText queryTags, some cap)
    else acc) (0, none)

/-- Embeds `CapabilityRegistry.match_capability` (agent_discovery.py lines
60-116, in-memory path).  A dict query is modelled by its `text` and `tags`
components.  Agents whose best score reaches `minScore` are collected in
registry iteration order and stably sorted by score, descending. -/
def matchCapability (registry : List RegistryEntry) (queryText : String)
    (queryTags : List String) (minScore : ℚ) : List MatchResult :=
  sortDescBy (fun r => r.score)
    (registry.filterMap (fun e =>
      if (bestCapFold e.capabilities queryText queryTags).1 ≥ minScore then
        some ⟨e.agentId, (bestCapFold e.capabilities queryText queryTags).1,
              (bestCapFold e.capabilities queryText queryTags).2⟩
      else none))

/-- Spec-side per-capability score, following the claim wording (amended by the
query normalization the source applies): after the query is lowercased and
stripped, the score is the highest applicable rule value among 1 for an exact
name match (short-circuit), 4/5 for a query substring of the name, 3/5 for a
substring of the description, 7/10 for a substring of an example, and the tag
overlap value. -/
def specCapabilityScore (cap : AgentCapability) (queryText : String)
    (queryTags : List String) : ℚ :=
  let q := normQuery queryText
  let qtags := queryTags.map lowerStr
  if lowerStr cap.name == q then 1
  else
    let vals : List ℚ :=
      (if strIn q (lowerStr cap.name) then [4 / 5] else []) ++
      (if strIn q (lowerStr cap.description) then [3 / 5] else []) ++
      (if cap.examples.any (fun ex => strIn q (lowerStr ex)) then [7 / 10] else []) ++
      (if !qtags.isEmpty && !cap.tags.isEmpty then
        if !(matchedTags cap qtags).isEmpty then [tagScore cap qtags] else []
      else [])
    vals.foldl max 0

/-- Spec-side per-agent score: the maximum of the capability scores (0 when the
agent declares none). -/
def specAgentScore (caps : List AgentCapability) (queryText : String)
    (queryTags : List String) : ℚ :=
  (caps.map (fun c => specCapabilityScore c queryText queryTags)).foldl max 0

/-! ## Workflow planner graph utilities (`task_utils.py`) -/

/-- One entry of a task's `dependencies` list. -/
structure DepRef where
  taskId : String
  isBlocking : Bool
deriving DecidableEq, Repr

/-- The task dicts consumed by `identify_parallel_groups` and
`calculate_critical_path`.  `expected_duration` is an integer for the inputs
under scrutiny. -/
structure PlannerTask where
  id : String
  expectedDuration : Int := 0
  dependencies : List DepRef := []
  parallelizable : Bool := false
deriving DecidableEq, Repr

/-- The `times` pass of `calculate_critical_path` (task_utils.py lines 42-47):
one sweep over the task list in order, setting
`times[t] = max(times[t], times[dep] + duration(t))` for each blocking
dependency.  The dict is modelled as a total map defaulting to 0 (the Python
code would raise `KeyError` on a dependency id absent from the task list; the
inputs considered here have none). -/
def cpTimes (tasks : List PlannerTask) : String → Int :=
  tasks.foldl (fun times t =>
    t.dependencies.foldl (fun times dep =>
      if dep.isBlocking then
        fun s => if s = t.id then max (times t.id) (times dep.taskId + t.expectedDuration)
                 else times s
      else times) times)
    (fun _ => 0)

/-- Python `max(items, key=...)` over dict items in insertion order: the first
key attaining the maximal value. -/
def argmaxFirst (ids : List String) (f : String → Int) : Option String :=
  ids.foldl (fun acc i =>
    match acc with
    | none => some i
    | some j => if f i > f j then some i else acc) none

/-- One step of the path reconstruction of `calculate_critical_path` (lines
53-60): among all blocking dependencies of tasks with the current id, the first
one whose time strictly exceeds the best seen so far (initial best -1). -/
def cpNextDep (tasks : List PlannerTask) (times : String → Int) (current : String) :
    Option String :=
  (tasks.foldl (fun acc dt =>
    if dt.id = current then
      dt.dependencies.foldl (fun acc dep =>
        if dep.isBlocking ∧ times dep.taskId > acc.2 then (some dep.taskId, times dep.taskId)
        else acc) acc
    else acc) ((none : Option String), (-1 : Int))).1

/-- The `while current:` reconstruction loop, with fuel (the Python loop does
not terminate on cyclic inputs; the inputs considered here are acyclic and the
supplied fuel suffices). -/
def cpWalk (tasks : List PlannerTask) (times : String → Int) : Nat → String → List String
  | 0, _ => []
  | fuel + 1, current =>
    current :: (match cpNextDep tasks times current with
      | none => []
      | some d => cpWalk tasks times fuel d)

/-- Embeds `calculate_critical_path` (task_utils.py lines 41-61). -/
def calculateCriticalPath (tasks : List PlannerTask) : List String :=
  let times := cpTimes tasks
  let ids := (tasks.map (fun t => t.id)).eraseDups
  match argmaxFirst ids times with
  | none => []
  | some start => (cpWalk tasks times (tasks.length + 1) start).reverse

/-- The mutable state threaded through `identify_parallel_groups`: the
`visited` set, the open `current_group` and the closed `groups`, with Python's
unspecified set iteration order fixed to insertion order (the claims under
scrutiny are membership statements, unaffected by this choice). -/
structure PGState where
  visited : List String
  current : List String
  groups : List (List String)
deriving DecidableEq, Repr

/-- The `graph` of `identify_parallel_groups` (task_utils.py lines 6-10):
blocking dependency ids per task id, defaulting to the empty set. -/
def pgGraph (tasks : List PlannerTask) : String → List String :=
  tasks.foldl (fun g t =>
    t.dependencies.foldl (fun g dep =>
      if dep.isBlocking && !(g t.id).contains dep.taskId then
        fun s => if s = t.id then g t.id ++ [dep.taskId] else g s
      else g) g)
    (fun _ => [])

/-- The recursive `visit` closure of `identify_parallel_groups` (lines 16-30),
state-passing and fuelled: mark visited; if no blocking dependency of the task
is already visited extend the current group, otherwise close it and start a new
one; then recurse into every unvisited task that depends on this one (blocking
or not). -/
def pgVisit (tasks : List PlannerTask) (graph : String → List String) :
    Nat → String → PGState → PGState
  | 0, _, st => st
  | fuel + 1, tid, st =>
    if st.visited.contains tid then st
    else
      let st1 : PGState := { st with visited := st.visited ++ [tid] }
      let st2 : PGState :=
        if (graph tid).any (fun d => st1.visited.contains d) then
          let st' : PGState :=
            if !st1.current.isEmpty then
              { st1 with groups := st1.groups ++ [st1.current], current := [] }
            else st1
          { st' with current := st'.current ++ [tid] }
        else { st1 with current := st1.current ++ [tid] }
      tasks.foldl (fun st dt =>
        if !st.visited.contains dt.id && dt.dependencies.any (fun dep => dep.taskId == tid) then
          pgVisit tasks graph fuel dt.id st
        else st) st2

/-- Embeds `identify_parallel_groups` (task_utils.py lines 5-38). -/
def identifyParallelGroups (tasks : List PlannerTask) : List (List String) :=
  let graph := pgGraph tasks
  let st := tasks.foldl (fun st t =>
    if !st.visited.contains t.id then pgVisit tasks graph (tasks.length + 1) t.id st else st)
    (⟨[], [], []⟩ : PGState)
  if !st.current.isEmpty then st.groups ++ [st.current] else st.groups

/-! ## Registry service (`agent_registry/service.py`) -/

/-- One stored document of the `agents` collection, with timestamps as integer
epoch seconds. -/
structure AgentInfo where
  id : String
  name : String
  agentType : String := "agent"
  host : String := "localhost"
  port : Nat := 8000
  status : String := "registered"
  lastHeartbeat : Option Int := none
  registeredAt : Int := 0
deriving DecidableEq, Repr

/-- The JSON body returned by `GET /agents`. -/
structure ListAgentsResponse where
  agents : List AgentInfo
  count : Nat
deriving DecidableEq, Repr

/-- The staleness window the service associates with heartbeats: 300 seconds
(the Redis TTL set on registration/heartbeat, and the window `GET /stats`
uses to count an agent as active). -/
def heartbeatTimeout : Int := 300

/-- Embeds `list_agents` (`GET /agents`, service.py lines 209-230): every
document of the collection is returned, with no filter and no query parameter;
the datetime-to-ISO-string rendering is elided as injective formatting.  The
first component is the store after the call (unchanged: the endpoint only
reads). -/
def listAgents (store : List AgentInfo) : List AgentInfo × ListAgentsResponse :=
  (store, { agents := store, count := store.length })

/-! ## Reasoning-effort classifier (`task_factory.py`) -/

/-- The `analytical` keyword set (weight 1.0). -/
def analyticalKeywords : List String :=
  ["analyze", "evaluate", "assess", "research", "investigate", "study",
   "examine", "review", "diagnose", "audit", "survey", "inspect"]

/-- The `comparative` keyword set (weight 1.5). -/
def comparativeKeywords : List String :=
  ["compare", "contrast", "differentiate", "versus", "pros and cons",
   "trade-off", "benchmark", "measure against", "weigh", "rank"]

/-- The `creative` keyword set (weight 2.0). -/
def creativeKeywords : List String :=
  ["design", "create", "optimize", "improve", "innovate", "develop",
   "build", "construct", "craft", "devise", "formulate", "invent"]

/-- The `complex` keyword set (weight 2.5). -/
def complexKeywords : List String :=
  ["hypothesize", "synthesize", "debate", "refactor", "architect",
   "theorize", "model", "simulate", "predict", "extrapolate",
   "integrate", "transform", "restructure"]

/-- Embeds `TaskFactory.count_keyword_occurrences` (lines 194-217): the content
is lowercased; multi-word keywords are counted as plain substrings, single-word
keywords with `\b` whole-word boundaries; the per-keyword counts are summed
(the set iteration order is irrelevant to the sum). -/
def countKeywordOccurrences (content : String) (keywords : List String) : Nat :=
  keywords.foldl (fun acc kw =>
    acc + (if kw.data.contains ' ' then countOcc kw.data (content.data.map Char.toLower)
           else countWholeWord kw.data (content.data.map Char.toLower))) 0

/-- Python `round(x, 2)`.  Python rounds half to even; every reachable
complexity total is a multiple of 1/4 and hence exact in two decimals, where
every tie rule agrees, so round-half-up is a faithful model on those values. -/
def roundTo2 (x : ℚ) : ℚ := ((⌊x * 100 + 1 / 2⌋ : Int) : ℚ) / 100

/-- The outputs of `calculate_complexity_score` used downstream: the rounded
total and the per-category occurrence counts stored in `category_scores`
(matched-keyword diagnostic strings elided; they do not feed the logic). -/
structure ComplexityResult where
  total : ℚ
  analytical : Nat
  comparative : Nat
  creative : Nat
  complex : Nat
deriving DecidableEq, Repr

/-- Embeds `TaskFactory.calculate_complexity_score` (lines 219-261): weighted
sum of the category counts (weights 1, 3/2, 2, 5/2 in source dict order) plus
an overlap bonus of 1/4 per active category beyond the first. -/
def calculateComplexityScore (content : String) : ComplexityResult :=
  let ca := countKeywordOccurrences content analyticalKeywords
  let cc := countKeywordOccurrences content comparativeKeywords
  let cr := countKeywordOccurrences content creativeKeywords
  let cx := countKeywordOccurrences content complexKeywords
  let base : ℚ := (ca : ℚ) * 1 + (cc : ℚ) * (3 / 2) + (cr : ℚ) * 2 + (cx : ℚ) * (5 / 2)
  let active := [ca, cc, cr, cx].countP (fun n => decide (0 < n))
  let total := if active > 1 then base + 1 / 4 * ((active : ℚ) - 1) else base
  { total := roundTo2 total, analytical := ca, comparative := cc,
    creative := cr, complex := cx }

/-- The `EVENT_EFFORT_MAP["high"]` set (lines 80-84). -/
def highEvents : List String :=
  ["refine", "escalate", "critique", "conclude", "analyze", "evaluate", "compare", "refactor"]

/-- The `EVENT_EFFORT_MAP["medium"]` set. -/
def mediumEvents : List String := ["plan", "execute"]

/-- The `EVENT_EFFORT_MAP["low"]` set (matching it adjusts nothing: no
downgrades). -/
def lowEvents : List String := ["complete", "info"]

/-- The event-based adjustment (lines 341-353): skipped for a falsy event
(None or empty); an event in the high set raises to HIGH, one in the medium
set raises LOW to MEDIUM, anything else (including the low set) is a no-op. -/
def eventAdjust (event : Option String) (e : ReasoningEffort) : ReasoningEffort :=
  match event with
  | none => e
  | some ev =>
    if ev == "" then e
    else if highEvents.contains (lowerStr ev) then (if e ≠ .high then .high else e)
    else if mediumEvents.contains (lowerStr ev) then (if e = .low then .medium else e)
    else e

/-- The intent-based adjustment (lines 356-363), with the unbound `Enum`
reference repaired (see `estimateReasoningEffort`): a `modify_task` or
`start_task` intent escalates LOW to MEDIUM and MEDIUM to HIGH. -/
def intentAdjust (intent : Option String) (e : ReasoningEffort) : ReasoningEffort :=
  match intent with
  | none => e
  | some iv =>
    if iv == "modify_task" || iv == "start_task" then
      if e = .low then .medium else if e = .medium then .high else e
    else e

/-- The confidence-based adjustment (lines 367-373): confidence below 3/4
escalates LOW to MEDIUM and MEDIUM to HIGH. -/
def confidenceAdjust (confidence : Option ℚ) (e : ReasoningEffort) : ReasoningEffort :=
  match confidence with
  | none => e
  | some c =>
    if c < 3 / 4 then (if e = .low then .medium else if e = .medium then .high else e)
    else e

/-- The deadline-pressure adjustment (lines 376-380): pressure above 7/10
forces HIGH. -/
def deadlineAdjust (deadlinePressure : Option ℚ) (e : ReasoningEffort) : ReasoningEffort :=
  match deadlinePressure with
  | none => e
  | some d => if d > 7 / 10 then (if e ≠ .high then .high else e) else e

/-- The final guardrail (lines 383-386): a positive `complex` category count
bumps a LOW result to MEDIUM. -/
def complexGuardrail (complexCount : Nat) (e : ReasoningEffort) : ReasoningEffort :=
  if complexCount > 0 ∧ e = .low then .medium else e

/-- The numeric diagnostics of `estimate_reasoning_effort` that feed its
control flow or downstream analysis (message strings elided). -/
structure EstimateDiag where
  wordCount : Nat
  complexityScore : ℚ
  complexCount : Nat
  baseEffort : ReasoningEffort
  finalEffort : ReasoningEffort
deriving DecidableEq, Repr

/-- The classification logic of `TaskFactory.estimate_reasoning_effort`
(task_factory.py lines 276-390) with the missing `from enum import Enum`
repaired so the body runs to completion: complexity score and word count,
complexity-shrunk word thresholds (floors 10 and 5), base effort (HIGH when
score ≥ 2 or long content, MEDIUM when score ≥ 1/2 or medium-length content),
then the event, intent, confidence, deadline and complex-keyword adjustments
in source order. -/
def estimateReasoningEffortLogic (content : String) (event intent : Option String)
    (confidence deadlinePressure : Option ℚ) : ReasoningEffort × EstimateDiag :=
  let cs := calculateComplexityScore content
  let wc := countWords content
  let highThreshold : ℚ := max 10 (50 - cs.total * 5)
  let mediumThreshold : ℚ := max 5 (20 - cs.total * 2)
  let base : ReasoningEffort :=
    if cs.total ≥ 2 ∨ (wc : ℚ) > highThreshold then .high
    else if cs.total ≥ 1 / 2 ∨ (wc : ℚ) > mediumThreshold then .medium
    else .low
  let final := complexGuardrail cs.complex
    (deadlineAdjust deadlinePressure
      (confidenceAdjust confidence
        (intentAdjust intent
          (eventAdjust event base))))
  (final, { wordCount := wc, complexityScore := cs.total, complexCount := cs.complex,
            baseEffort := base, finalEffort := final })

/-- Embeds `TaskFactory.estimate_reasoning_effort` as the source actually
executes.  For string content the body computes diagnostics, thresholds, the
base effort and the event adjustment, and then unconditionally evaluates
`isinstance(intent, Enum)` (line 356) — but `Enum` is never imported in
task_factory.py, so every such call raises `NameError` before any result is
produced.  Only the non-string-content guard path (not representable with a
typed `String` argument) returns normally. -/
def estimateReasoningEffort (content : String) (event intent : Option String)
    (confidence deadlinePressure : Option ℚ) :
    Except String (ReasoningEffort × EstimateDiag) :=
  let _ := (content, event, intent, confidence, deadlinePressure)
  .error "NameError: name Enum is not defined"

/-! ## Concrete sample data used by the closed theorems -/

/-- A sample task core requiring one capability. -/
def demoTask : TaskCore :=
  ⟨"t-1", "calc", "compute a sum", "math", ["math_operations"], [], false, []⟩

/-- A sample header with no assigned agent. -/
def demoHeader : TaskHeader :=
  ⟨"c-1", "user", [], none, .new, 1, none, none, .plan, [], 0⟩

/-- An unassigned envelope (eligible for matching). -/
def demoEnvUnassigned : TaskEnvelope := ⟨demoHeader, demoTask⟩

/-- An envelope already routed to `agent_b`. -/
def demoEnvAssigned : TaskEnvelope :=
  ⟨{ demoHeader with assignedAgent := some "agent_b" }, demoTask⟩

/-- An envelope whose assigned agent is the empty string: non-null, but falsy
for Python truthiness. -/
def demoEnvEmptyAssigned : TaskEnvelope :=
  ⟨{ demoHeader with assignedAgent := some "" }, demoTask⟩

/-- The envelope the matcher produces from `demoEnvEmptyAssigned`. -/
def demoEnvEmptyReassigned : TaskEnvelope :=
  ⟨{ demoHeader with candidateAgents := ["agent_a"], assignedAgent := some "agent_a" },
   demoTask⟩

/-- A one-agent matcher registry covering the demo task's capability. -/
def demoRegistry : List (String × List String) :=
  [("agent_a", ["math_operations", "web_search"])]

/-- A capability named `math` for the discovery registry. -/
def capMath : AgentCapability := ⟨"math", "does math", [], none, []⟩

/-- A linear blocking chain A → B → C with durations 1, 2, 3. -/
def chainTasks : List PlannerTask :=
  [⟨"A", 1, [], false⟩,
   ⟨"B", 2, [⟨"A", true⟩], false⟩,
   ⟨"C", 3, [⟨"B", true⟩], false⟩]

/-- Two dependency-free tasks, both with `parallelizable = false`. -/
def twoSequentialTasks : List PlannerTask :=
  [⟨"t1", 0, [], false⟩, ⟨"t2", 0, [], false⟩]

/-- A stored registry-service document whose heartbeat is long stale. -/
def staleAgent : AgentInfo :=
  ⟨"a1", "Agent One", "agent", "localhost", 8000, "active", some 0, 0⟩

end Omega

namespace Omega

/-! ## Helper lemmas -/

/-- Each contextual adjustment step only escalates: event step. -/
theorem eventAdjust_le (event : Option String) (e : ReasoningEffort) :
    effortLe e (eventAdjust event e) := by
  cases event with
  | none => simp [eventAdjust, effortLe]
  | some ev =>
    simp only [eventAdjust]
    split_ifs <;> cases e <;> simp_all [effortLe, effortRank]

/-- Each contextual adjustment step only escalates: intent step. -/
theorem intentAdjust_le (intent : Option String) (e : ReasoningEffort) :
    effortLe e (intentAdjust intent e) := by
  cases intent with
  | none => simp [intentAdjust, effortLe]
  | some iv =>
    simp only [intentAdjust]
    split_ifs <;> simp_all [effortLe, effortRank]

/-- Each contextual adjustment step only escalates: confidence step. -/
theorem confidenceAdjust_le (confidence : Option ℚ) (e : ReasoningEffort) :
    effortLe e (confidenceAdjust confidence e) := by
  cases confidence with
  | none => simp [confidenceAdjust, effortLe]
  | some c =>
    simp only [confidenceAdjust]
    split_ifs <;> simp_all [effortLe, effortRank]

/-- Each contextual adjustment step only escalates: deadline step. -/
theorem deadlineAdjust_le (d : Option ℚ) (e : ReasoningEffort) :
    effortLe e (deadlineAdjust d e) := by
  cases d with
  | none => simp [deadlineAdjust, effortLe]
  | some v =>
    simp only [deadlineAdjust]
    split_ifs <;> cases e <;> simp_all [effortLe, effortRank]

/-- Each contextual adjustment step only escalates: complex-keyword guardrail. -/
theorem complexGuardrail_le (n : Nat) (e : ReasoningEffort) :
    effortLe e (complexGuardrail n e) := by
  simp only [complexGuardrail]
  split_ifs <;> simp_all [effortLe, effortRank]

/-- Transitivity of the effort order. -/
theorem effortLe_trans {a b c : ReasoningEffort} (h1 : effortLe a b) (h2 : effortLe b c) :
    effortLe a c := Nat.le_trans h1 h2

/-- The intent step keeps HIGH at HIGH. -/
theorem intentAdjust_high (intent : Option String) : intentAdjust intent .high = .high := by
  cases intent <;> simp [intentAdjust]

/-- The confidence step keeps HIGH at HIGH. -/
theorem confidenceAdjust_high (c : Option ℚ) : confidenceAdjust c .high = .high := by
  cases c <;> simp [confidenceAdjust]

/-- The deadline step keeps HIGH at HIGH. -/
theorem deadlineAdjust_high (d : Option ℚ) : deadlineAdjust d .high = .high := by
  cases d <;> simp [deadlineAdjust]

/-- The guardrail keeps HIGH at HIGH. -/
theorem complexGuardrail_high (n : Nat) : complexGuardrail n .high = .high := by
  simp [complexGuardrail]

/-- A positive complex count means the guardrail's output is never LOW. -/
theorem complexGuardrail_ne_low (n : Nat) (hn : 0 < n) (e : ReasoningEffort) :
    complexGuardrail n e ≠ .low := by
  simp only [complexGuardrail]
  split_ifs with hc
  · simp
  · intro he; exact hc ⟨hn, he⟩

/-- The running example fold of `_score_capability_match` equals a single
conditional raise by 7/10 when any example matches. -/
theorem exampleFold_eq_any (q : String) (exs : List String) (a : ℚ) :
    exs.foldl (fun acc ex => if strIn q (lowerStr ex) then max acc (7 / 10) else acc) a
      = if exs.any (fun ex => strIn q (lowerStr ex)) then max a (7 / 10) else a := by
  induction exs generalizing a with
  | nil => simp
  | cons x t ih =>
    simp only [List.foldl_cons, List.any_cons]
    by_cases hx : strIn q (lowerStr x)
    · rw [if_pos hx, ih]
      simp only [hx, Bool.true_or, if_pos]
      split <;> simp [max_assoc]
    · rw [if_neg hx, ih]
      simp [hx]

/-- The source's sequential max-raising per-capability score equals the
spec-side highest-applicable-rule-value score. -/
theorem scoreCapabilityMatch_eq_spec (cap : AgentCapability) (queryText : String)
    (queryTags : List String) :
    scoreCapabilityMatch cap queryText queryTags
      = specCapabilityScore cap queryText queryTags := by
  simp only [scoreCapabilityMatch, specCapabilityScore]
  split
  · rfl
  · rw [exampleFold_eq_any]
    split_ifs <;> simp only [List.nil_append, List.append_nil, List.cons_append,
      List.foldl_cons, List.foldl_nil, max_assoc]

/-- The strictly-greater best fold of `match_capability` computes the maximum
capability score, i.e. the spec-side per-agent score. -/
theorem bestCapFold_fst (caps : List AgentCapability) (queryText : String)
    (queryTags : List String) :
    (bestCapFold caps queryText queryTags).1 = specAgentScore caps queryText queryTags := by
  have key : ∀ (l : List AgentCapability) (acc : ℚ × Option AgentCapability),
      (l.foldl (fun acc cap =>
        if scoreCapabilityMatch cap queryText queryTags > acc.1 then
          (scoreCapabilityMatch cap queryText queryTags, some cap)
        else acc) acc).1
        = l.foldl (fun a c => max a (scoreCapabilityMatch c queryText queryTags)) acc.1 := by
    intro l
    induction l with
    | nil => intro acc; rfl
    | cons c t ih =>
      intro acc
      simp only [List.foldl_cons]
      rw [ih]
      congr 1
      by_cases hgt : scoreCapabilityMatch c queryText queryTags > acc.1
      · rw [if_pos hgt]; exact (max_eq_right hgt.le).symm
      · rw [if_neg hgt]; exact (max_eq_left (not_lt.mp hgt)).symm
  rw [bestCapFold, key, specAgentScore, List.foldl_map]
  simp only [scoreCapabilityMatch_eq_spec]

/-! ## Claim theorems -/

/-- C1: the claim says each consumed message is acknowledged exactly once and
only after a successful publish, with no acknowledgment when publishing raises.
The code instead acknowledges in a `finally` block: with an unassigned envelope
whose inbox publish raises, the message is still acknowledged (once) although
nothing was published and the exception escapes; and an already-routed message
is acknowledged twice (explicit `xack` plus `finally`). -/
theorem matcher_ack_divergence :
    (matcherProcessMessage demoRegistry (some demoEnvUnassigned) false false).ackCount = 1 ∧
    (matcherProcessMessage demoRegistry (some demoEnvUnassigned) false false).raised = true ∧
    (matcherProcessMessage demoRegistry (some demoEnvUnassigned) false false).inboxPublishes
      = [] ∧
    (matcherProcessMessage demoRegistry (some demoEnvUnassigned) false false).auditPublishes
      = [] ∧
    (matcherProcessMessage demoRegistry (some demoEnvAssigned) true true).ackCount = 2 := by
  decide

/-- C2: the claim says that on a handler exception the consume loop still
acknowledges, marks the envelope FAILED and still publishes it to the shared
result stream.  The code only logs and acknowledges: with a raising handler
nothing at all is published (so no FAILED envelope reaches `task.events`),
while a successful handler's envelope is published unchanged. -/
theorem consume_ack_divergence :
    consumeProcessMessage (fun _ => .error "handler boom") (some demoEnvUnassigned) true
      = ⟨1, [], true⟩ ∧
    consumeProcessMessage (fun e => .ok e) (some demoEnvUnassigned) true
      = ⟨1, [demoEnvUnassigned], false⟩ := by
  decide

/-- C3 counterexample: an envelope whose assigned agent is the empty string is
non-null, yet the dispatch pass treats it as unassigned (Python truthiness),
reassigns it and republishes it to the selected agent's inbox. -/
theorem matcher_empty_assigned_rematched :
    demoEnvEmptyAssigned.header.assignedAgent = some "" ∧
    demoEnvEmptyAssigned.header.assignedAgent ≠ none ∧
    (matcherProcessMessage demoRegistry (some demoEnvEmptyAssigned) true true).inboxPublishes
      = [("agent_a", demoEnvEmptyReassigned)] ∧
    demoEnvEmptyReassigned.header.assignedAgent = some "agent_a" := by
  decide

/-- C3 (amended): for an envelope whose assigned agent is non-null and
non-empty, a matching pass is a no-op on the envelope — no header or task
field changes, nothing is published to any inbox or to the audit stream, no
error is raised — though the message is acknowledged twice. -/
theorem matcher_assigned_noop (registry : List (String × List String)) (env : TaskEnvelope)
    (inboxOk auditOk : Bool) (s : String) (hs : env.header.assignedAgent = some s)
    (hne : s ≠ "") :
    matcherProcessMessage registry (some env) inboxOk auditOk
      = ⟨2, [], [], false, some env⟩ := by
  simp [matcherProcessMessage, optStrTruthy, hs, hne]

/-- C3 witness: the amended no-op theorem applied to a concrete assigned
envelope. -/
theorem matcher_assigned_noop_witness :
    matcherProcessMessage demoRegistry (some demoEnvAssigned) true true
      = ⟨2, [], [], false, some demoEnvAssigned⟩ :=
  matcher_assigned_noop demoRegistry demoEnvAssigned true true "agent_b" rfl (by decide)

/-- C4 counterexample: for the whitespace-padded query " math" against a
capability named "math" (description "x", no examples, no tags, no query
tags), none of the claim's rules applies — the query is not an exact
case-insensitive match of the name and is a substring of neither name nor
description — yet `match_capability` strips the query first and returns the
agent with the full score 1 at `min_score = 1`. -/
theorem match_capability_unstripped_query :
    (matchCapability [⟨"a1", [⟨"math", "x", [], none, []⟩], 0⟩] " math" [] 1).map
      (fun r => (r.agentId, r.score)) = [("a1", 1)] ∧
    lowerStr " math" ≠ lowerStr "math" ∧
    strIn (lowerStr " math") (lowerStr "math") = false ∧
    strIn (lowerStr " math") (lowerStr "x") = false := by
  decide

/-- C4 (amended): after the query is lowercased and stripped of surrounding
whitespace (matching is case-insensitive throughout), each capability's score
is the highest applicable rule value (1 exact name match, short-circuit; 4/5
name substring; 3/5 description substring; 7/10 example substring; 1/2 +
(matched/queryTags)·2/5 tag overlap), an agent's score is the maximum over its
capabilities, and the returned list is exactly the agents with score ≥
minScore, stably sorted descending by score. -/
theorem matchCapability_characterization (registry : List RegistryEntry) (queryText : String)
    (queryTags : List String) (minScore : ℚ) :
    matchCapability registry queryText queryTags minScore =
      sortDescBy (fun r => r.score)
        (registry.filterMap (fun e =>
          if minScore ≤ specAgentScore e.capabilities queryText queryTags then
            some ⟨e.agentId, specAgentScore e.capabilities queryText queryTags,
                  (bestCapFold e.capabilities queryText queryTags).2⟩
          else none)) ∧
    (matchCapability registry queryText queryTags minScore).Sorted
      (fun a b => b.score ≤ a.score) := by
  constructor
  · unfold matchCapability
    congr 1
    apply List.filterMap_congr
    intro e _
    simp only [bestCapFold_fst, ge_iff_le]
  · unfold matchCapability sortDescBy
    haveI : IsTotal MatchResult (fun a b => b.score ≤ a.score) := ⟨fun a b => le_total _ _⟩
    haveI : IsTrans MatchResult (fun a b => b.score ≤ a.score) :=
      ⟨fun _ _ _ h1 h2 => le_trans h2 h1⟩
    exact List.sorted_insertionSort _ _

/-- C5: on the linear blocking chain A → B → C with durations 1, 2, 3 the code
does return the path [A, B, C], but the longest-path value it computes for the
chain's end is 5, not the 6 the claim's formula gives: a task with no blocking
dependencies keeps time 0, so the chain-start task's own duration is dropped. -/
theorem critical_path_chain_divergence :
    calculateCriticalPath chainTasks = ["A", "B", "C"] ∧
    cpTimes chainTasks "C" = 5 ∧
    cpTimes chainTasks "A" = 0 := by
  decide

/-- C6: the claim says a task with `parallelizable = false` never joins a
multi-task group.  The code never reads the flag: two dependency-free tasks
both marked non-parallelizable are placed together in one group. -/
theorem parallel_groups_ignore_parallelizable_flag :
    identifyParallelGroups twoSequentialTasks = [["t1", "t2"]] ∧
    twoSequentialTasks.all (fun t => !t.parallelizable) = true := by
  decide

/-- C7: the claim describes properties of the value returned by
`estimate_reasoning_effort`, but the source accesses the unbound name `Enum`
(never imported in task_factory.py) on every call with string content, so the
call raises `NameError` before any effort is returned; evaluated here at the
claim's kind of input.  The claimed properties do hold for the classification
logic once the import is repaired: see `estimateLogic_monotone`,
`estimateLogic_event_forces_high` and `estimateLogic_complex_not_low`. -/
theorem estimate_reasoning_effort_raises :
    estimateReasoningEffort "analyze and compare the system design options" (some "plan")
      (some "start_task") (some 1) none
      = .error "NameError: name Enum is not defined" := rfl

/-- C8 counterexample: an entry whose heartbeat is 1000 seconds old — far past
the 300-second staleness window — is still returned by the default listing,
which has no staleness filter and no all-entries parameter. -/
theorem list_agents_includes_stale :
    (listAgents [staleAgent]).2.agents = [staleAgent] ∧
    staleAgent.lastHeartbeat = some 0 ∧
    (1000 : Int) - 0 > heartbeatTimeout := by
  decide

/-- C8 (amended): the agent-listing operation returns every stored entry
regardless of heartbeat age — there is no staleness filter and no
explicit-all flag — and deletes nothing from the store. -/
theorem list_agents_returns_all (store : List AgentInfo) :
    (listAgents store).2.agents = store ∧
    (listAgents store).2.count = store.length ∧
    (listAgents store).1 = store :=
  ⟨rfl, rfl, rfl⟩

/-- C9 counterexample: two agents tie at score 1 for an exact-match query;
agent a2 has the more recent `last_updated` (2 > 1) yet a1 is returned first,
because the result keeps registry iteration order on ties — recency is never
consulted. -/
theorem match_capability_tie_ignores_recency :
    (matchCapability [⟨"a1", [capMath], 1⟩, ⟨"a2", [capMath], 2⟩] "math" [] 1).map
      (fun r => r.agentId) = ["a1", "a2"] ∧
    (1 : ℚ) < 2 := by
  decide

/-- C9 (amended): when two registered agents attain the same maximal score at
or above the threshold, `match_capability` returns them in registry-storage
iteration order — the stable sort compares scores only, so `last_updated`
(heartbeat recency) plays no role in the tie-break. -/
theorem match_capability_tie_registry_order (e1 e2 : RegistryEntry) (q : String)
    (tags : List String) (m : ℚ)
    (hs : specAgentScore e1.capabilities q tags = specAgentScore e2.capabilities q tags)
    (hm : m ≤ specAgentScore e1.capabilities q tags) :
    (matchCapability [e1, e2] q tags m).map (fun r => r.agentId)
      = [e1.agentId, e2.agentId] := by
  unfold matchCapability
  have h1 : (bestCapFold e1.capabilities q tags).1 = specAgentScore e1.capabilities q tags :=
    bestCapFold_fst _ _ _
  have h2 : (bestCapFold e2.capabilities q tags).1 = specAgentScore e2.capabilities q tags :=
    bestCapFold_fst _ _ _
  rw [List.filterMap_cons, List.filterMap_cons, List.filterMap_nil]
  rw [if_pos (by rw [ge_iff_le, h1]; exact hm), if_pos (by rw [ge_iff_le, h2, ← hs]; exact hm)]
  unfold sortDescBy
  simp only [List.insertionSort, List.orderedInsert]
  rw [if_pos (show (⟨e2.agentId, (bestCapFold e2.capabilities q tags).1,
        (bestCapFold e2.capabilities q tags).2⟩ : MatchResult).score ≤
      (⟨e1.agentId, (bestCapFold e1.capabilities q tags).1,
        (bestCapFold e1.capabilities q tags).2⟩ : MatchResult).score by
    simp only [h1, h2, ← hs]; exact le_refl _)]
  simp

/-- C9 witness: the amended tie-order theorem applied to two concrete agents
with identical capability sets and different `last_updated` stamps. -/
theorem match_capability_tie_registry_order_witness :
    (matchCapability [⟨"a9", [capMath], 5⟩, ⟨"b7", [capMath], 99⟩] "math" [] 1).map
      (fun r => r.agentId) = ["a9", "b7"] :=
  match_capability_tie_registry_order ⟨"a9", [capMath], 5⟩ ⟨"b7", [capMath], 99⟩ "math" [] 1
    rfl (by decide)

/-- C10: `TaskHeader._auto_effort` derives a missing (or null) effort from a
present strategy key — direct yields LOW, chain-of-thought MEDIUM, any other
value (chain-of-draft, or an explicit null strategy) HIGH — leaves effort null
when neither key is supplied, and never overrides a supplied effort. -/
theorem auto_effort_derivation :
    autoEffort none (some (some .direct)) = some .low ∧
    autoEffort none (some (some .cot)) = some .medium ∧
    autoEffort none (some (some .cod)) = some .high ∧
    autoEffort none (some none) = some .high ∧
    autoEffort none none = none ∧
    (∀ (e : ReasoningEffort) (s : Option (Option ReasoningStrategy)),
      autoEffort (some e) s = some e) := by
  refine ⟨rfl, rfl, rfl, rfl, rfl, fun e s => ?_⟩
  cases s <;> rfl

/-! ## Supporting theorems for the repaired classifier logic (C7) -/

/-- Contextual adjustments never de-escalate: the final effort of the repaired
classification logic is at least its base effort, for every input. -/
theorem estimateLogic_monotone (content : String) (event intent : Option String)
    (confidence deadlinePressure : Option ℚ) :
    effortLe
      (estimateReasoningEffortLogic content event intent confidence
        deadlinePressure).2.baseEffort
      (estimateReasoningEffortLogic content event intent confidence deadlinePressure).1 := by
  simp only [estimateReasoningEffortLogic]
  exact effortLe_trans (eventAdjust_le _ _)
    (effortLe_trans (intentAdjust_le _ _)
      (effortLe_trans (confidenceAdjust_le _ _)
        (effortLe_trans (deadlineAdjust_le _ _) (complexGuardrail_le _ _))))

/-- The REFINE, ESCALATE, CRITIQUE and CONCLUDE events force the repaired
logic's result to HIGH, whatever the content and other context. -/
theorem estimateLogic_event_forces_high (content : String) (ev : String)
    (intent : Option String) (confidence deadlinePressure : Option ℚ)
    (h : lowerStr ev ∈ ["refine", "escalate", "critique", "conclude"]) :
    (estimateReasoningEffortLogic content (some ev) intent confidence deadlinePressure).1
      = .high := by
  have hev : eventAdjust (some ev)
      (estimateReasoningEffortLogic content (some ev) intent confidence
        deadlinePressure).2.baseEffort = .high := by
    have hne : ev ≠ "" := by
      intro he; subst he; simp [lowerStr] at h
    have hmem : highEvents.contains (lowerStr ev) = true := by
      simp only [List.mem_cons, List.not_mem_nil, or_false] at h
      rcases h with h | h | h | h <;> rw [h] <;> decide
    simp only [eventAdjust, hmem]
    split_ifs with h1 h2 <;> simp_all
  simp only [estimateReasoningEffortLogic] at hev ⊢
  rw [hev, intentAdjust_high, confidenceAdjust_high, deadlineAdjust_high, complexGuardrail_high]

/-- Witness for the event-forcing theorem at a concrete input (the event
casing is immaterial). -/
theorem estimateLogic_event_forces_high_witness :
    lowerStr "REFINE" ∈ ["refine", "escalate", "critique", "conclude"] ∧
    (estimateReasoningEffortLogic "hi" (some "REFINE") none none none).1 = .high :=
  ⟨by decide, estimateLogic_event_forces_high "hi" "REFINE" none none none (by decide)⟩

/-- Content with a positive complex-category count never yields LOW from the
repaired logic. -/
theorem estimateLogic_complex_not_low (content : String) (event intent : Option String)
    (confidence deadlinePressure : Option ℚ)
    (h : 0 < (estimateReasoningEffortLogic content event intent confidence
                deadlinePressure).2.complexCount) :
    (estimateReasoningEffortLogic content event intent confidence deadlinePressure).1
      ≠ .low := by
  simp only [estimateReasoningEffortLogic] at h ⊢
  exact complexGuardrail_ne_low _ h _

/-- Witness for the complex-keyword theorem: content containing the complex
keywords `refactor` and `model`. -/
theorem estimateLogic_complex_not_low_witness :
    0 < (estimateReasoningEffortLogic "refactor the data model" none none none
          none).2.complexCount ∧
    (estimateReasoningEffortLogic "refactor the data model" none none none none).1 ≠ .low :=
  ⟨by decide, estimateLogic_complex_not_low "refactor the data model" none none none none
    (by decide)⟩

end Omega
